import Mathlib

/-!
# Hack-or-Snooze: the in-memory data model of `src/js/models.js`

A shallow embedding of the classes `Story`, `StoryList` and `User`.

Modelling conventions.

* An attribute value (`storyId`, `title`, `loginToken`, ...) is a JavaScript string or
  `undefined`; it is an `Option String`, `none` standing for `undefined`.
* An `async` method is a function from the settled state of the promise it awaits
  (the `reply` argument) to the settled state of the promise it returns
  (`Except JsError _`), together with the objects it mutated and the requests it issued.
  A method that starts a request without awaiting it still takes the `reply`; the
  reply then has no influence on what the method computes.
* The arrays `StoryList.stories`, `User.favorites` and `User.ownStories` are three
  distinct array objects, as they are whenever they come out of the constructors and
  methods of the source (`map` and `filter` return fresh arrays), so each is a `List`
  of its own.
-/

namespace HackOrSnooze

/-- Base address of the remote service (`models.js`, line 3). -/
def BASE_URL : String := "https://hack-or-snooze-v3.herokuapp.com"

/-- Attribute value: a JavaScript string, or `undefined` (`none`). -/
abbrev Attr := Option String

/-- Loose inequality `a != b` of JavaScript. Between two strings it is string
inequality, `undefined != undefined` is `false`, and `undefined` differs from every
string: on attribute values it is the negation of equality. -/
def looseNe (a b : Attr) : Bool := a != b

/-- Text of `${a}` inside a template literal. -/
def interpolate : Attr → String
  | none => "undefined"
  | some s => s

/-- Errors a promise of the model can be rejected with. -/
inductive JsError where
  /-- A `TypeError` raised by the JavaScript runtime. -/
  | typeError
  /-- The rejection of a request, carrying the reason the HTTP client reports. -/
  | rejected (reason : String)
  deriving DecidableEq, Repr

/-- Settled promise of a request: rejected, or fulfilled with a response whose `data`
is `none` when it is `null` or `undefined`. -/
abbrev Reply (α : Type) := Except JsError (Option α)

/-! ## Story -/

/-- Plain story object as it travels on the wire; a property the object does not have
reads as `undefined` (so a value without any of the six properties is the record
whose six fields are `none`). -/
structure StoryRecord where
  storyId : Attr
  title : Attr
  author : Attr
  url : Attr
  username : Attr
  createdAt : Attr
  deriving DecidableEq, Repr

/-- Instance of the class `Story`. -/
structure Story where
  storyId : Attr
  title : Attr
  author : Attr
  url : Attr
  username : Attr
  createdAt : Attr
  deriving DecidableEq, Repr

/-- The constructor of `Story` (`models.js`, lines 15-22). The parameter is the
destructuring pattern `{ storyId, title, author, url, username, createdAt }`:
destructuring `null` or `undefined` (`none`) raises a `TypeError`; on an object each of
the six properties is read and stored as it is. -/
def Story.constructor : Option StoryRecord → Except JsError Story
  | none => .error .typeError
  | some r =>
    .ok { storyId := r.storyId, title := r.title, author := r.author, url := r.url,
          username := r.username, createdAt := r.createdAt }

/-- The call `xs.map(s => new Story(s))` on an array `xs`: the first element whose
construction throws aborts the whole call. -/
def mapNewStory : List (Option StoryRecord) → Except JsError (List Story)
  | [] => .ok []
  | x :: xs =>
    match Story.constructor x with
    | .error e => .error e
    | .ok s =>
      match mapNewStory xs with
      | .error e => .error e
      | .ok ss => .ok (s :: ss)

/-! ## Requests -/

/-- HTTP method of a request. -/
inductive Method where
  | GET
  | POST
  | DELETE
  deriving DecidableEq, Repr

/-- What a request carries besides its address. -/
inductive Payload where
  /-- Body `{ token, story: { author, title, url } }`. -/
  | tokenStory (token author title url : Attr)
  /-- Body `{ token }`. -/
  | token (token : Attr)
  /-- Query parameters `{ token }`. -/
  | params (token : Attr)
  /-- Body `{ user: { username, password, name } }`. -/
  | newUser (username password name : Attr)
  /-- Body `{ user: { username, password } }`. -/
  | credentials (username password : Attr)
  deriving DecidableEq, Repr

/-- Request handed to the HTTP client. -/
structure Request where
  method : Method
  url : String
  payload : Payload
  deriving DecidableEq, Repr

/-! ## User -/

/-- Value of a property that is expected to hold an array of story objects. -/
inductive ArrayField where
  /-- The property is absent. -/
  | undefined
  /-- The property holds `null` or any other value that has no method `map`. -/
  | notArray
  /-- The property holds an array; an element is `none` when it is `null`. -/
  | array (items : List (Option StoryRecord))
  deriving DecidableEq, Repr

/-- Default value `= []` of a destructured parameter: it replaces `undefined` only. -/
def ArrayField.orEmpty : ArrayField → ArrayField
  | .undefined => .array []
  | a => a

/-- The call `a.map(s => new Story(s))`: a `TypeError` unless `a` is an array. -/
def ArrayField.mapNewStory : ArrayField → Except JsError (List Story)
  | .array xs => HackOrSnooze.mapNewStory xs
  | _ => .error .typeError

/-- Object literal passed to the constructor of `User`. -/
structure UserData where
  username : Attr
  name : Attr
  createdAt : Attr
  favorites : ArrayField
  ownStories : ArrayField
  deriving DecidableEq, Repr

/-- User object as it travels on the wire; the stories the user wrote are in the
property `stories`. -/
structure UserRecord where
  username : Attr
  name : Attr
  createdAt : Attr
  favorites : ArrayField
  stories : ArrayField
  deriving DecidableEq, Repr

/-- Instance of the class `User`. -/
structure User where
  username : Attr
  name : Attr
  createdAt : Attr
  favorites : List Story
  ownStories : List Story
  loginToken : Attr
  deriving DecidableEq, Repr

/-- The constructor of `User` (`models.js`, lines 148-166). -/
def User.constructor (d : UserData) (token : Attr) : Except JsError User :=
  match d.favorites.orEmpty.mapNewStory with
  | .error e => .error e
  | .ok favorites =>
    match d.ownStories.orEmpty.mapNewStory with
    | .error e => .error e
    | .ok ownStories =>
      .ok { username := d.username, name := d.name, createdAt := d.createdAt,
            favorites := favorites, ownStories := ownStories, loginToken := token }

/-- The expression `new User({ username: user.username, name: user.name, createdAt:
user.createdAt, favorites: user.favorites, ownStories: user.stories }, token)`, written
out in `signup` (lines 184-193), `login` (lines 211-220) and
`loginViaStoredCredentials` (lines 237-246). Reading a property of a `user` that is
`null` or `undefined` raises a `TypeError`. -/
def newUserFrom (user : Option UserRecord) (token : Attr) : Except JsError User :=
  match user with
  | none => .error .typeError
  | some user =>
    User.constructor
      { username := user.username, name := user.name, createdAt := user.createdAt,
        favorites := user.favorites, ownStories := user.stories }
      token

/-- The `data` of a signup or login response: `{ user, token }`. -/
structure AuthData where
  user : Option UserRecord
  token : Attr
  deriving DecidableEq, Repr

/-- The `data` of a get-user response: `{ user }`. -/
structure UserInfo where
  user : Option UserRecord
  deriving DecidableEq, Repr

/-- Outcome of a static method: the settled promise and the requests issued. -/
structure Call (α : Type) where
  result : Except JsError α
  sent : List Request

/-- The static method `User.signup` (`models.js`, lines 175-194). -/
def User.signup (username password name : Attr) (reply : Reply AuthData) : Call User :=
  let request : Request :=
    { method := .POST, url := BASE_URL ++ "/signup",
      payload := .newUser username password name }
  match reply with
  | .error e => { result := .error e, sent := [request] }
  | .ok none => { result := .error .typeError, sent := [request] }
  | .ok (some data) => { result := newUserFrom data.user data.token, sent := [request] }

/-- The static method `User.login` (`models.js`, lines 202-221). -/
def User.login (username password : Attr) (reply : Reply AuthData) : Call User :=
  let request : Request :=
    { method := .POST, url := BASE_URL ++ "/login",
      payload := .credentials username password }
  match reply with
  | .error e => { result := .error e, sent := [request] }
  | .ok none => { result := .error .typeError, sent := [request] }
  | .ok (some data) => { result := newUserFrom data.user data.token, sent := [request] }

/-- The static method `User.loginViaStoredCredentials` (`models.js`, lines 227-251).
The whole body is inside `try`; the `catch` block returns `null` (`none`). -/
def User.loginViaStoredCredentials (token username : Attr) (reply : Reply UserInfo) :
    Call (Option User) :=
  let request : Request :=
    { method := .GET, url := BASE_URL ++ "/users/" ++ interpolate username,
      payload := .params token }
  let body : Except JsError User :=
    match reply with
    | .error e => .error e
    | .ok none => .error .typeError
    | .ok (some data) => newUserFrom data.user token
  match body with
  | .error _ => { result := .ok none, sent := [request] }
  | .ok user => { result := .ok (some user), sent := [request] }

/-- Outcome of a method of `User`: the settled promise, the user after the call and
the requests issued. -/
structure UserStep (α : Type) where
  result : Except JsError α
  user : User
  sent : List Request

/-- The method `User.addStoryFavorite` (`models.js`, lines 262-272): `push` appends
the story; the request is started and not awaited. -/
def User.addStoryFavorite (this : User) (story : Story) (_reply : Reply Unit) :
    UserStep Unit :=
  let this1 : User := { this with favorites := this.favorites ++ [story] }
  let curToken := this1.loginToken
  let request : Request :=
    { method := .POST,
      url := BASE_URL ++ "/users/" ++ interpolate this1.username ++ "/favorites/"
        ++ interpolate story.storyId,
      payload := .token curToken }
  { result := .ok (), user := this1, sent := [request] }

/-- The method `User.deleteStoryFavorite` (`models.js`, lines 283-295); the request is
started and not awaited. -/
def User.deleteStoryFavorite (this : User) (story : Story) (_reply : Reply Unit) :
    UserStep Unit :=
  let this1 : User :=
    { this with favorites := this.favorites.filter fun fav => looseNe fav.storyId story.storyId }
  let curToken := this1.loginToken
  let request : Request :=
    { method := .DELETE,
      url := BASE_URL ++ "/users/" ++ interpolate this1.username ++ "/favorites/"
        ++ interpolate story.storyId,
      payload := .token curToken }
  { result := .ok (), user := this1, sent := [request] }

/-! ## StoryList -/

/-- Instance of the class `StoryList`. -/
structure StoryList where
  stories : List Story
  deriving DecidableEq, Repr

/-- The object `{ title, author, url }` given to `addStory`. -/
structure Draft where
  title : Attr
  author : Attr
  url : Attr
  deriving DecidableEq, Repr

/-- The `data` of a create-story response: `{ story }`. -/
structure CreateData where
  story : Option StoryRecord
  deriving DecidableEq, Repr

/-- Outcome of a method of `StoryList`: the settled promise, the story list and the
user after the call, and the requests issued. -/
structure Step (α : Type) where
  result : Except JsError α
  storyList : StoryList
  user : User
  sent : List Request

/-- The method `StoryList.addStory` (`models.js`, lines 78-93). The request is
awaited: a rejection, a response without `data` and a failing `new Story` all leave
the method before the two `unshift` calls. -/
def StoryList.addStory (this : StoryList) (user : User) (newStory : Draft)
    (reply : Reply CreateData) : Step Story :=
  let curToken := user.loginToken
  let request : Request :=
    { method := .POST, url := BASE_URL ++ "/stories",
      payload := .tokenStory curToken newStory.author newStory.title newStory.url }
  match reply with
  | .error e => { result := .error e, storyList := this, user := user, sent := [request] }
  | .ok none =>
    { result := .error .typeError, storyList := this, user := user, sent := [request] }
  | .ok (some data) =>
    match Story.constructor data.story with
    | .error e => { result := .error e, storyList := this, user := user, sent := [request] }
    | .ok addedStory =>
      { result := .ok addedStory,
        storyList := { this with stories := addedStory :: this.stories },
        user := { user with ownStories := addedStory :: user.ownStories },
        sent := [request] }

/-- The method `StoryList.removeStory` (`models.js`, lines 117-134); the request is
started and not awaited. -/
def StoryList.removeStory (this : StoryList) (user : User) (storyID : Attr)
    (_reply : Reply Unit) : Step Unit :=
  let curToken := user.loginToken
  let request : Request :=
    { method := .DELETE, url := BASE_URL ++ "/stories/" ++ interpolate storyID,
      payload := .token curToken }
  let this1 : StoryList :=
    { this with stories := this.stories.filter fun s => looseNe s.storyId storyID }
  let user1 : User :=
    { user with ownStories := user.ownStories.filter fun s => looseNe s.storyId storyID }
  let user2 : User :=
    { user1 with favorites := user1.favorites.filter fun s => looseNe s.storyId storyID }
  { result := .ok (), storyList := this1, user := user2, sent := [request] }

/-! ## Sequences of calls -/

/-- One call on a story list: `addStory(user, newStory)` or `removeStory(user, storyID)`,
with the settled promise of the request the call issues. -/
inductive Op where
  | add (newStory : Draft) (reply : Reply CreateData)
  | remove (storyID : Attr) (reply : Reply Unit)

/-- Story list and user after one call. -/
def Op.run (this : StoryList) (user : User) : Op → StoryList × User
  | .add newStory reply =>
    ((this.addStory user newStory reply).storyList, (this.addStory user newStory reply).user)
  | .remove storyID reply =>
    ((this.removeStory user storyID reply).storyList,
      (this.removeStory user storyID reply).user)

/-- Story list and user after a finite sequence of calls, run from left to right. -/
def runOps (this : StoryList) (user : User) : List Op → StoryList × User
  | [] => (this, user)
  | op :: ops => runOps (op.run this user).1 (op.run this user).2 ops

/-- The `storyId` values the remote service returned in a sequence of calls: one for
each `addStory` whose response carries a story object. -/
def issuedIds : List Op → List Attr
  | [] => []
  | .add _ (.ok (some { story := some r })) :: ops => r.storyId :: issuedIds ops
  | _ :: ops => issuedIds ops

/-- The `storyId` values of a collection, in order. -/
def storyIds (stories : List Story) : List Attr := stories.map Story.storyId

/-! ## Sample values -/

/-- A story object with all six attributes. -/
def sampleRecord : StoryRecord :=
  { storyId := some "s1", title := some "T", author := some "A",
    url := some "http://x.com", username := some "u", createdAt := some "2020-01-01" }

/-- A story object without `storyId`. -/
def recordWithoutId : StoryRecord := { sampleRecord with storyId := none }

/-- The story built from `sampleRecord`. -/
def sampleStory : Story :=
  { storyId := some "s1", title := some "T", author := some "A",
    url := some "http://x.com", username := some "u", createdAt := some "2020-01-01" }

/-- Another story, with another `storyId`. -/
def otherStory : Story := { sampleStory with storyId := some "s2", title := some "T2" }

/-- A user who wrote `sampleStory` and has it as the only favorite. -/
def sampleUser : User :=
  { username := some "u", name := some "U", createdAt := some "2019-12-31",
    favorites := [sampleStory], ownStories := [sampleStory], loginToken := some "tok" }

/-- A story list holding `sampleStory` only. -/
def sampleList : StoryList := { stories := [sampleStory] }

/-- A draft for a new story. -/
def sampleDraft : Draft := { title := some "T", author := some "A", url := some "http://x.com" }

/-- The Story that `new Story(r)` builds from an object `r`: property by property. -/
def storyOf (r : StoryRecord) : Story :=
  { storyId := r.storyId, title := r.title, author := r.author, url := r.url,
    username := r.username, createdAt := r.createdAt }

/-- A user object whose arrays hold `sampleRecord`. -/
def sampleUserRecord : UserRecord :=
  { username := some "u", name := some "U", createdAt := some "2019-12-31",
    favorites := .array [some sampleRecord], stories := .array [some sampleRecord] }

/-! ## Auxiliary facts -/

theorem looseNe_eq_decide (a b : Attr) : looseNe a b = decide (a ≠ b) := by
  by_cases h : a = b <;> simp [looseNe, h]

theorem filter_looseNe (l : List Story) (id : Attr) :
    (l.filter fun s => looseNe s.storyId id) = l.filter fun s => decide (s.storyId ≠ id) := by
  congr 1
  funext s
  exact looseNe_eq_decide _ _

theorem filter_looseNe_of_absent (l : List Story) (id : Attr)
    (h : ∀ s ∈ l, s.storyId ≠ id) : (l.filter fun s => looseNe s.storyId id) = l := by
  rw [List.filter_eq_self]
  intro s hs
  simpa [looseNe_eq_decide] using h s hs

theorem not_mem_filter_looseNe (l : List Story) (id : Attr) :
    ∀ s ∈ (l.filter fun s => looseNe s.storyId id), s.storyId ≠ id := by
  intro s hs
  have := (List.mem_filter.mp hs).2
  simpa [looseNe_eq_decide] using this

theorem nodup_storyIds_filter (l : List Story) (p : Story → Bool)
    (h : (storyIds l).Nodup) : (storyIds (l.filter p)).Nodup :=
  h.sublist ((List.filter_sublist l).map Story.storyId)

/-! ## StoryList.addStory -/

/-- Claim C1. When the create request is fulfilled with a response holding the story
object `r`, `addStory` returns the Story built from `r`; afterwards `stories` is that
Story followed by the previous stories, `ownStories` is that Story followed by the
previous own stories, and nothing else of the user changed. -/
theorem addStory_inserts_at_front (this : StoryList) (user : User) (newStory : Draft)
    (r : StoryRecord) :
    ∃ s : Story, Story.constructor (some r) = .ok s ∧
      (this.addStory user newStory (.ok (some { story := some r }))).result = .ok s ∧
      (this.addStory user newStory (.ok (some { story := some r }))).storyList.stories
        = s :: this.stories ∧
      (this.addStory user newStory (.ok (some { story := some r }))).user.ownStories
        = s :: user.ownStories ∧
      (this.addStory user newStory (.ok (some { story := some r }))).user.favorites
        = user.favorites := by
  exact ⟨_, rfl, rfl, rfl, rfl, rfl⟩

/-- Claim C3. When the create request is rejected with `e`, `addStory` is rejected
with `e` and the story list and the user (favorites and own stories included) are what
they were before the call. -/
theorem addStory_rejected_no_mutation (this : StoryList) (user : User) (newStory : Draft)
    (e : JsError) :
    (this.addStory user newStory (.error e)).result = .error e ∧
      (this.addStory user newStory (.error e)).storyList = this ∧
      (this.addStory user newStory (.error e)).user = user := by
  exact ⟨rfl, rfl, rfl⟩

/-! ## StoryList.removeStory -/

/-- Claim C2. Whatever the reply to the delete request, after `removeStory(user, id)`
no story with that `storyId` is left in `stories`, `ownStories` or `favorites`, and
each of the three is its previous content with the stories of that `storyId` filtered
out. -/
theorem removeStory_filters_all (this : StoryList) (user : User) (id : Attr)
    (reply : Reply Unit) :
    (∀ s ∈ (this.removeStory user id reply).storyList.stories, s.storyId ≠ id) ∧
      (∀ s ∈ (this.removeStory user id reply).user.ownStories, s.storyId ≠ id) ∧
      (∀ s ∈ (this.removeStory user id reply).user.favorites, s.storyId ≠ id) ∧
      (this.removeStory user id reply).storyList.stories
        = this.stories.filter (fun s => decide (s.storyId ≠ id)) ∧
      (this.removeStory user id reply).user.ownStories
        = user.ownStories.filter (fun s => decide (s.storyId ≠ id)) ∧
      (this.removeStory user id reply).user.favorites
        = user.favorites.filter (fun s => decide (s.storyId ≠ id)) := by
  refine ⟨?_, ?_, ?_, ?_, ?_, ?_⟩
  · exact not_mem_filter_looseNe this.stories id
  · exact not_mem_filter_looseNe user.ownStories id
  · exact not_mem_filter_looseNe user.favorites id
  · exact filter_looseNe this.stories id
  · exact filter_looseNe user.ownStories id
  · exact filter_looseNe user.favorites id

/-- Claim C9. When no story of `stories`, `ownStories` and `favorites` has the
`storyId` `id`, `removeStory(user, id)` leaves the story list and the user unchanged
and still issues the delete request; and a second `removeStory(user, id)` leaves the
story list and the user as the first one left them, issuing the delete request again. -/
theorem removeStory_idempotent (this : StoryList) (user : User) (id : Attr)
    (reply reply2 : Reply Unit) :
    ((∀ s ∈ this.stories, s.storyId ≠ id) → (∀ s ∈ user.ownStories, s.storyId ≠ id) →
      (∀ s ∈ user.favorites, s.storyId ≠ id) →
        (this.removeStory user id reply).storyList = this ∧
        (this.removeStory user id reply).user = user ∧
        (this.removeStory user id reply).sent =
          [{ method := .DELETE, url := BASE_URL ++ "/stories/" ++ interpolate id,
             payload := .token user.loginToken }]) ∧
      ((this.removeStory user id reply).storyList.removeStory
          (this.removeStory user id reply).user id reply2).storyList
        = (this.removeStory user id reply).storyList ∧
      ((this.removeStory user id reply).storyList.removeStory
          (this.removeStory user id reply).user id reply2).user
        = (this.removeStory user id reply).user ∧
      ((this.removeStory user id reply).storyList.removeStory
          (this.removeStory user id reply).user id reply2).sent
        = [{ method := .DELETE, url := BASE_URL ++ "/stories/" ++ interpolate id,
             payload := .token user.loginToken }] := by
  refine ⟨?_, ?_, ?_, rfl⟩
  · intro h1 h2 h3
    cases this with
    | mk stories =>
      cases user with
      | mk username name createdAt favorites ownStories loginToken =>
        have e1 := filter_looseNe_of_absent stories id h1
        have e2 := filter_looseNe_of_absent ownStories id h2
        have e3 := filter_looseNe_of_absent favorites id h3
        simp only [StoryList.removeStory, e1, e2, e3, and_self]
  · simp only [StoryList.removeStory, List.filter_filter, Bool.and_self]
  · simp only [StoryList.removeStory, List.filter_filter, Bool.and_self]

/-- Witness of `removeStory_idempotent`: removing the absent id `"s9"` from
`sampleList` and `sampleUser`. -/
theorem removeStory_idempotent_witness :
    (sampleList.removeStory sampleUser (some "s9") (.ok none)).storyList = sampleList ∧
      (sampleList.removeStory sampleUser (some "s9") (.ok none)).user = sampleUser ∧
      (sampleList.removeStory sampleUser (some "s9") (.ok none)).sent =
        [{ method := .DELETE, url := BASE_URL ++ "/stories/" ++ interpolate (some "s9"),
           payload := .token sampleUser.loginToken }] :=
  (removeStory_idempotent sampleList sampleUser (some "s9") (.ok none) (.ok none)).1
    (by decide) (by decide) (by decide)

/-! ## Favorites -/

theorem filter_looseNe_append_self (l : List Story) (story : Story)
    (h : ∀ fav ∈ l, fav.storyId ≠ story.storyId) :
    ((l ++ [story]).filter fun fav => looseNe fav.storyId story.storyId) = l := by
  rw [List.filter_append, filter_looseNe_of_absent l story.storyId h]
  simp [looseNe]

/-- Counterexample to claim C4: `sampleUser` has `sampleStory` as only favorite; after
`addStoryFavorite(sampleStory)` and `deleteStoryFavorite(sampleStory)` the favorites are
empty. -/
theorem favorite_round_trip_loses_favorite :
    sampleUser.favorites = [sampleStory] ∧
      ((sampleUser.addStoryFavorite sampleStory (.ok none)).user.deleteStoryFavorite
        sampleStory (.ok none)).user.favorites = [] := by
  decide

/-- Claim C4, amended. For a story whose `storyId` is that of no favorite of the user,
`addStoryFavorite(story)` followed by `deleteStoryFavorite(story)` leaves the user, the
favorites among the rest, as before the two calls, whatever the replies. -/
theorem favorite_round_trip (this : User) (story : Story) (reply reply2 : Reply Unit)
    (h : ∀ fav ∈ this.favorites, fav.storyId ≠ story.storyId) :
    ((this.addStoryFavorite story reply).user.deleteStoryFavorite story reply2).user.favorites
        = this.favorites ∧
      ((this.addStoryFavorite story reply).user.deleteStoryFavorite story reply2).user
        = this := by
  have e := filter_looseNe_append_self this.favorites story h
  cases this with
  | mk username name createdAt favorites ownStories loginToken =>
    simp only [User.addStoryFavorite, User.deleteStoryFavorite] at e ⊢
    simp only [e, and_self]

/-- Witness of `favorite_round_trip`: `sampleUser` and `otherStory`, which is not a
favorite. -/
theorem favorite_round_trip_witness :
    ((sampleUser.addStoryFavorite otherStory (.ok none)).user.deleteStoryFavorite
        otherStory (.ok none)).user.favorites = sampleUser.favorites ∧
      ((sampleUser.addStoryFavorite otherStory (.ok none)).user.deleteStoryFavorite
        otherStory (.ok none)).user = sampleUser :=
  favorite_round_trip sampleUser otherStory (.ok none) (.ok none) (by decide)

/-! ## Story construction -/

/-- Counterexample to claim C10: on an object without `storyId` the constructor does
not fail, it returns a Story whose `storyId` is `undefined`. -/
theorem story_constructor_accepts_missing_id :
    recordWithoutId.storyId = none ∧
      Story.constructor (some recordWithoutId) = .ok { sampleStory with storyId := none } :=
  ⟨rfl, rfl⟩

/-- Claim C10, amended. The constructor of Story fails on no object: for every story
object, with or without `storyId` and `title`, it returns a Story whose six fields
equal the six properties of the object, an absent property being `undefined`. -/
theorem story_constructor_copies_fields (r : StoryRecord) :
    ∃ s : Story, Story.constructor (some r) = .ok s ∧
      s.storyId = r.storyId ∧ s.title = r.title ∧ s.author = r.author ∧ s.url = r.url ∧
      s.username = r.username ∧ s.createdAt = r.createdAt := by
  exact ⟨_, rfl, rfl, rfl, rfl, rfl, rfl, rfl⟩

/-! ## Uniqueness of `storyId` in the collections of a user -/

theorem storyIds_cons (s : Story) (l : List Story) :
    storyIds (s :: l) = s.storyId :: storyIds l := rfl

theorem storyIds_append_singleton (l : List Story) (s : Story) :
    storyIds (l ++ [s]) = storyIds l ++ [s.storyId] := by
  simp [storyIds]

theorem addStory_ownStories (this : StoryList) (user : User) (newStory : Draft)
    (reply : Reply CreateData) :
    ((this.addStory user newStory reply).user.ownStories = user.ownStories ∧
        (this.addStory user newStory reply).storyList.stories = this.stories ∧
        ∀ s, (this.addStory user newStory reply).result ≠ .ok s) ∨
      ∃ r : StoryRecord, reply = .ok (some { story := some r }) ∧
        (this.addStory user newStory reply).result = .ok (storyOf r) ∧
        (this.addStory user newStory reply).user.ownStories = storyOf r :: user.ownStories ∧
        (this.addStory user newStory reply).storyList.stories = storyOf r :: this.stories := by
  rcases reply with e | _ | ⟨_ | r⟩
  · exact Or.inl ⟨rfl, rfl, fun s h => by simp [StoryList.addStory] at h⟩
  · exact Or.inl ⟨rfl, rfl, fun s h => by simp [StoryList.addStory] at h⟩
  · exact Or.inl ⟨rfl, rfl, fun s h => by simp [StoryList.addStory, Story.constructor] at h⟩
  · exact Or.inr ⟨r, rfl, rfl, rfl, rfl⟩

theorem addStory_favorites (this : StoryList) (user : User) (newStory : Draft)
    (reply : Reply CreateData) :
    (this.addStory user newStory reply).user.favorites = user.favorites := by
  rcases reply with e | _ | ⟨_ | r⟩ <;> rfl

/-- Counterexample to claim C5: the favorites and the own stories of `sampleUser` have
pairwise distinct `storyId`s; after `addStoryFavorite(sampleStory)` the favorites hold
the `storyId` of `sampleStory` twice, and after an `addStory` whose response carries
the `storyId` of `sampleStory` the own stories hold it twice. -/
theorem user_uniqueness_not_preserved :
    (storyIds sampleUser.favorites).Nodup ∧ (storyIds sampleUser.ownStories).Nodup ∧
      ¬ (storyIds (sampleUser.addStoryFavorite sampleStory (.ok none)).user.favorites).Nodup ∧
      ¬ (storyIds (sampleList.addStory sampleUser sampleDraft
          (.ok (some { story := some sampleRecord }))).user.ownStories).Nodup := by
  decide

/-- Claim C5, amended. If the favorites and the own stories of a user each hold no two
stories with equal `storyId`, they still do after `removeStory` and after
`deleteStoryFavorite`; after `addStoryFavorite(story)` when no favorite has the
`storyId` of `story`; and after `addStory` when the story it returns has the `storyId`
of no own story. -/
theorem user_uniqueness_preserved (user : User)
    (hf : (storyIds user.favorites).Nodup) (ho : (storyIds user.ownStories).Nodup) :
    (∀ (this : StoryList) (id : Attr) (reply : Reply Unit),
        (storyIds (this.removeStory user id reply).user.favorites).Nodup ∧
        (storyIds (this.removeStory user id reply).user.ownStories).Nodup) ∧
      (∀ (story : Story) (reply : Reply Unit),
        (storyIds (user.deleteStoryFavorite story reply).user.favorites).Nodup ∧
        (storyIds (user.deleteStoryFavorite story reply).user.ownStories).Nodup) ∧
      (∀ (story : Story) (reply : Reply Unit),
        story.storyId ∉ storyIds user.favorites →
        (storyIds (user.addStoryFavorite story reply).user.favorites).Nodup ∧
        (storyIds (user.addStoryFavorite story reply).user.ownStories).Nodup) ∧
      (∀ (this : StoryList) (newStory : Draft) (reply : Reply CreateData),
        (∀ s, (this.addStory user newStory reply).result = .ok s →
          s.storyId ∉ storyIds user.ownStories) →
        (storyIds (this.addStory user newStory reply).user.favorites).Nodup ∧
        (storyIds (this.addStory user newStory reply).user.ownStories).Nodup) := by
  refine ⟨?_, ?_, ?_, ?_⟩
  · intro this id reply
    exact ⟨nodup_storyIds_filter _ _ hf, nodup_storyIds_filter _ _ ho⟩
  · intro story reply
    exact ⟨nodup_storyIds_filter _ _ hf, ho⟩
  · intro story reply hnew
    refine ⟨?_, ho⟩
    show (storyIds (user.favorites ++ [story])).Nodup
    rw [storyIds_append_singleton]
    exact List.Nodup.append hf (List.nodup_singleton _) (by simpa using hnew)
  · intro this newStory reply hnew
    rw [addStory_favorites]
    refine ⟨hf, ?_⟩
    rcases addStory_ownStories this user newStory reply with ⟨h, _, _⟩ | ⟨r, _, hres, h, _⟩
    · rw [h]; exact ho
    · rw [h, storyIds_cons]
      exact List.nodup_cons.mpr ⟨hnew _ hres, ho⟩

/-- Witness of `user_uniqueness_preserved`: `sampleUser`, to whose favorites
`otherStory` is added. -/
theorem user_uniqueness_preserved_witness :
    (storyIds (sampleUser.addStoryFavorite otherStory (.ok none)).user.favorites).Nodup ∧
      (storyIds (sampleUser.addStoryFavorite otherStory (.ok none)).user.ownStories).Nodup :=
  (user_uniqueness_preserved sampleUser (by decide) (by decide)).2.2.1 otherStory (.ok none)
    (by decide)

/-! ## Uniqueness of `storyId` in the story list -/

theorem issuedIds_add_story (newStory : Draft) (r : StoryRecord) (ops : List Op) :
    issuedIds (.add newStory (.ok (some { story := some r })) :: ops)
      = r.storyId :: issuedIds ops := rfl

/-- Counterexample to claim C6: `sampleList` holds one story; after one `addStory`
whose response carries the `storyId` of that story, the list holds that `storyId`
twice. -/
theorem storyList_uniqueness_not_preserved :
    (storyIds sampleList.stories).Nodup ∧
      ¬ (storyIds (runOps sampleList sampleUser
          [.add sampleDraft (.ok (some { story := some sampleRecord }))]).1.stories).Nodup := by
  decide

/-- Claim C6, amended. Starting from a story list with pairwise distinct `storyId`s,
after every finite sequence of `addStory` and `removeStory` calls in which the
`storyId`s returned by the remote service are pairwise distinct and distinct from
those of the starting list, the story list holds no two stories with equal
`storyId`. -/
theorem storyList_uniqueness_preserved (this : StoryList) (user : User) (ops : List Op)
    (h : (storyIds this.stories).Nodup) (hn : (issuedIds ops).Nodup)
    (hd : ∀ id ∈ issuedIds ops, id ∉ storyIds this.stories) :
    (storyIds (runOps this user ops).1.stories).Nodup := by
  induction ops generalizing this user with
  | nil => exact h
  | cons op ops ih =>
    cases op with
    | remove storyID reply =>
      have e : issuedIds (Op.remove storyID reply :: ops) = issuedIds ops := rfl
      rw [e] at hn hd
      refine ih _ _ (nodup_storyIds_filter _ _ h) hn ?_
      intro id hid hmem
      exact hd id hid (((List.filter_sublist this.stories).map Story.storyId).subset hmem)
    | add newStory reply =>
      rcases addStory_ownStories this user newStory reply with ⟨_, hs, hr⟩ | ⟨r, hreply, _, _, hs⟩
      · have e : issuedIds (Op.add newStory reply :: ops) = issuedIds ops := by
          rcases reply with e | _ | ⟨_ | r⟩
          · rfl
          · rfl
          · rfl
          · exact absurd rfl (hr (storyOf r))
        rw [e] at hn hd
        refine ih _ _ ?_ hn ?_
        · show (storyIds (this.addStory user newStory reply).storyList.stories).Nodup
          rw [hs]; exact h
        · show ∀ id ∈ issuedIds ops,
            id ∉ storyIds (this.addStory user newStory reply).storyList.stories
          rw [hs]; exact hd
      · subst hreply
        rw [issuedIds_add_story] at hn hd
        have hn2 := List.nodup_cons.mp hn
        refine ih _ _ ?_ hn2.2 ?_
        · show (storyIds (this.addStory user newStory _).storyList.stories).Nodup
          rw [hs, storyIds_cons]
          exact List.nodup_cons.mpr ⟨hd _ (List.mem_cons_self _ _), h⟩
        · show ∀ id ∈ issuedIds ops,
            id ∉ storyIds (this.addStory user newStory _).storyList.stories
          rw [hs, storyIds_cons]
          intro id hid hmem
          rcases List.mem_cons.mp hmem with heq | hin
          · have hid2 : id = r.storyId := heq
            exact hn2.1 (hid2 ▸ hid)
          · exact hd id (List.mem_cons_of_mem _ hid) hin

/-- Witness of `storyList_uniqueness_preserved`: `sampleList`, to which a story with
another `storyId` is added, from which `sampleStory` is removed, and to which a story
with a third `storyId` is added. -/
theorem storyList_uniqueness_preserved_witness :
    (storyIds (runOps sampleList sampleUser
      [.add sampleDraft (.ok (some { story := some { sampleRecord with storyId := some "s2" } })),
       .remove (some "s1") (.error (.rejected "Network Error")),
       .add sampleDraft (.ok (some { story := some { sampleRecord with storyId := some "s3" } }))]
      ).1.stories).Nodup :=
  storyList_uniqueness_preserved sampleList sampleUser _ (by decide) (by decide) (by decide)

/-! ## Building a user from a response -/

theorem mapNewStory_records (rs : List StoryRecord) :
    mapNewStory (rs.map some) = .ok (rs.map storyOf) := by
  induction rs with
  | nil => rfl
  | cons r rs ih => simp only [List.map_cons, mapNewStory, Story.constructor, ih, storyOf]

theorem newUserFrom_records (username name createdAt token : Attr)
    (fs ss : List StoryRecord) :
    newUserFrom
        (some { username := username, name := name, createdAt := createdAt,
                favorites := .array (fs.map some), stories := .array (ss.map some) })
        token
      = .ok { username := username, name := name, createdAt := createdAt,
              favorites := fs.map storyOf, ownStories := ss.map storyOf,
              loginToken := token } := by
  simp only [newUserFrom, User.constructor, ArrayField.orEmpty, ArrayField.mapNewStory,
    mapNewStory_records]

theorem newUserFrom_loginToken (user : Option UserRecord) (token : Attr) (u : User)
    (h : newUserFrom user token = .ok u) : u.loginToken = token := by
  cases user with
  | none => simp [newUserFrom] at h
  | some r =>
    simp only [newUserFrom, User.constructor] at h
    split at h
    · simp at h
    · split at h
      · simp at h
      · simp only [Except.ok.injEq] at h
        rw [← h]

/-- Claim C8. For every fulfilled signup or login response `{ user, token }` whose
`user` holds the arrays `favorites` and `stories` of story objects, the returned User
has the token of the response as `loginToken`, the `username`, `name` and `createdAt`
of the response's user, as `favorites` the Stories built from the objects of
`user.favorites` in the same order, and as `ownStories` the Stories built from the
objects of `user.stories` in the same order. -/
theorem signup_login_build_user (username password name : Attr)
    (uUsername uName uCreatedAt token : Attr) (fs ss : List StoryRecord) :
    (∀ r : StoryRecord, Story.constructor (some r) = .ok (storyOf r)) ∧
      (User.signup username password name
          (.ok (some { user := some { username := uUsername, name := uName,
                                      createdAt := uCreatedAt,
                                      favorites := .array (fs.map some),
                                      stories := .array (ss.map some) },
                       token := token }))).result
        = .ok { username := uUsername, name := uName, createdAt := uCreatedAt,
                favorites := fs.map storyOf, ownStories := ss.map storyOf,
                loginToken := token } ∧
      (User.login username password
          (.ok (some { user := some { username := uUsername, name := uName,
                                      createdAt := uCreatedAt,
                                      favorites := .array (fs.map some),
                                      stories := .array (ss.map some) },
                       token := token }))).result
        = .ok { username := uUsername, name := uName, createdAt := uCreatedAt,
                favorites := fs.map storyOf, ownStories := ss.map storyOf,
                loginToken := token } := by
  refine ⟨fun _ => rfl, ?_, ?_⟩
  · exact newUserFrom_records uUsername uName uCreatedAt token fs ss
  · exact newUserFrom_records uUsername uName uCreatedAt token fs ss

/-- Claim C7. The promise `loginViaStoredCredentials` returns is never rejected: it is
fulfilled with `null` when the get-user request is rejected, when the response has no
`data`, and when building the User from the response throws; when the User `u` is
built, it is fulfilled with `u`, whose `loginToken` is the token passed in. -/
theorem loginViaStoredCredentials_never_rejects (token username : Attr) :
    (∀ reply : Reply UserInfo,
        ∃ r, (User.loginViaStoredCredentials token username reply).result = .ok r) ∧
      (∀ e : JsError,
        (User.loginViaStoredCredentials token username (.error e)).result = .ok none) ∧
      (User.loginViaStoredCredentials token username (.ok none)).result = .ok none ∧
      (∀ (data : UserInfo) (e : JsError), newUserFrom data.user token = .error e →
        (User.loginViaStoredCredentials token username (.ok (some data))).result
          = .ok none) ∧
      (∀ (data : UserInfo) (u : User), newUserFrom data.user token = .ok u →
        (User.loginViaStoredCredentials token username (.ok (some data))).result
          = .ok (some u) ∧ u.loginToken = token) := by
  refine ⟨?_, fun _ => rfl, rfl, ?_, ?_⟩
  · intro reply
    rcases reply with e | _ | data
    · exact ⟨none, rfl⟩
    · exact ⟨none, rfl⟩
    · cases h : newUserFrom data.user token with
      | error e => exact ⟨none, by simp only [User.loginViaStoredCredentials, h]⟩
      | ok u => exact ⟨some u, by simp only [User.loginViaStoredCredentials, h]⟩
  · intro data e h
    simp only [User.loginViaStoredCredentials, h]
  · intro data u h
    exact ⟨by simp only [User.loginViaStoredCredentials, h], newUserFrom_loginToken _ _ _ h⟩

/-- Witness of `loginViaStoredCredentials_never_rejects`: the response holding
`sampleUserRecord` restores `sampleUser` with the stored token. -/
theorem loginViaStoredCredentials_never_rejects_witness :
    (User.loginViaStoredCredentials (some "tok") (some "u")
        (.ok (some { user := some sampleUserRecord }))).result = .ok (some sampleUser) ∧
      sampleUser.loginToken = some "tok" :=
  (loginViaStoredCredentials_never_rejects (some "tok") (some "u")).2.2.2.2
    { user := some sampleUserRecord } sampleUser rfl

end HackOrSnooze
